import Mathlib

/-!
Verification of the jackalope-backend resumable upload lifecycle.

Shallow embedding of the upload subsystem:
  - `src/services/uploadDb.ts`   (UploadDbService, the upload record store)
  - `src/routes/upload.ts`       (the lifecycle route handlers)
  - `src/routes/upload-status.ts` (status facade routes)
  - `src/services/fileProcessing.ts` (FileProcessorService, background promotion)
  - `src/services/s3Upload.ts`   (S3UploadService, object-store client)

The database is a list of upload records; Supabase calls become pure
functions over that list.  A PostgREST `.update().eq().eq()` updates every
matching row; a `.select().single()` returns the row when exactly one
matches, null (code PGRST116) when none matches, and an error otherwise.
JavaScript `undefined` arguments to update payloads are dropped by JSON
serialization, so an `undefined` column is left untouched; `Option`
arguments with `none` model that.  Wall-clock values (`new Date()`) are
threaded explicitly as a `now : Nat` parameter.
-/

/-- The `status` column of an upload record (uploadDb.ts line 14). -/
inductive UploadStatus
  | active
  | completed
  | aborted
  | failed
deriving DecidableEq, Repr

/-- The `processing_status` column (uploadDb.ts line 15). -/
inductive ProcStatus
  | pending
  | processing
  | processed
  | failed
deriving DecidableEq, Repr

/-- The `upload_type` column (uploadDb.ts line 18). -/
inductive UploadType
  | single
  | multipart
deriving DecidableEq, Repr

/-- One acknowledged chunk of a multipart upload (s3Upload.ts UploadPart). -/
structure UploadPart where
  partNumber : Nat
  etag : String
  size : Nat
  uploadedAt : Nat
deriving DecidableEq, Repr

/-- One row of the `uploads` table (uploadDb.ts UploadRecord).
`Option` fields are nullable columns; `none` is SQL NULL. -/
structure UploadRecord where
  user_id : String
  upload_id : String
  s3_key : String
  bucket : String
  filename : String
  content_type : String
  total_size : Nat
  status : UploadStatus
  processing_status : Option ProcStatus
  processing_progress : Option Nat
  processing_message : Option String
  upload_type : UploadType
  parts : List UploadPart
  created_at : Nat
  updated_at : Nat
  completed_at : Option Nat
  final_s3_key : Option String
  final_bucket : Option String
  thumbnail_s3_key : Option String
  thumbnail_url : Option String
  thumbnail_cloudinary_url : Option String
deriving DecidableEq, Repr

/-- The `uploads` table. -/
abbrev Db := List UploadRecord

/-- Decidable equality of Except results, to evaluate service outcomes
on concrete inputs. -/
instance instDecEqExcept {ε α : Type} [DecidableEq ε] [DecidableEq α] :
    DecidableEq (Except ε α) := fun a b =>
  match a, b with
  | .error e1, .error e2 =>
      if h : e1 = e2 then .isTrue (congrArg Except.error h)
      else .isFalse (fun hc => h (Except.error.inj hc))
  | .ok x, .ok y =>
      if h : x = y then .isTrue (congrArg Except.ok h)
      else .isFalse (fun hc => h (Except.ok.inj hc))
  | .error _, .ok _ => .isFalse (fun hc => Except.noConfusion hc)
  | .ok _, .error _ => .isFalse (fun hc => Except.noConfusion hc)

/-- The Supabase filter `.eq(upload_id, uploadId).eq(user_id, userId)`. -/
def keyMatches (uploadId userId : String) (r : UploadRecord) : Bool :=
  r.upload_id == uploadId && r.user_id == userId

/-- The rows a `.eq().eq()` query selects. -/
def filterKey (db : Db) (uploadId userId : String) : List UploadRecord :=
  List.filter (keyMatches uploadId userId) db

/-- `UploadDbService.getUploadRecord`: a `.select().single()` query.
No row gives PGRST116, which the service maps to `null`; more than one
row is a query error, which the service rethrows. -/
def getUploadRecord (db : Db) (uploadId userId : String) :
    Except String (Option UploadRecord) :=
  match filterKey db uploadId userId with
  | [] => .ok none
  | [r] => .ok (some r)
  | _ => .error "Failed to get upload record"

/-- A PostgREST `.update(payload).eq(upload_id).eq(user_id)`: every
matching row is rewritten by the payload. -/
def updateMatching (db : Db) (uploadId userId : String)
    (f : UploadRecord → UploadRecord) : Db :=
  List.map (fun r => if keyMatches uploadId userId r then f r else r) db

/-- A JavaScript optional argument inside an update payload: `undefined`
keys are dropped from the JSON body, so the column keeps its old value. -/
def setIfProvided (newVal old : Option String) : Option String :=
  match newVal with
  | some v => some v
  | none => old

/-- `UploadDbService.createUploadRecord`: the freshly inserted row
(uploadDb.ts lines 41-58).  `status = active`, `processing_status =
pending`, `processing_progress = 0`, `parts = []`. -/
def createUploadRecord (userId uploadId s3Key bucket filename contentType : String)
    (totalSize : Nat) (uploadType : UploadType) (now : Nat) : UploadRecord :=
  { user_id := userId
    upload_id := uploadId
    s3_key := s3Key
    bucket := bucket
    filename := filename
    content_type := contentType
    total_size := totalSize
    status := .active
    processing_status := some .pending
    processing_progress := some 0
    processing_message := none
    upload_type := uploadType
    parts := []
    created_at := now
    updated_at := now
    completed_at := none
    final_s3_key := none
    final_bucket := none
    thumbnail_s3_key := none
    thumbnail_url := none
    thumbnail_cloudinary_url := none }

/-- The part-array merge of `UploadDbService.updateUploadPart`
(uploadDb.ts lines 121-137): `findIndex` on `partNumber`, assign at the
found index, else `push`. -/
def upsertPartList (parts : List UploadPart) (newPart : UploadPart) :
    List UploadPart :=
  match List.findIdx? (fun p => p.partNumber == newPart.partNumber) parts with
  | some i => parts.set i newPart
  | none => parts ++ [newPart]

/-- The read phase of `UploadDbService.updateUploadPart` (uploadDb.ts
lines 116-119): fetch the record, throw `Upload record not found` when
absent, and snapshot its `parts` array. -/
def updateUploadPartRead (db : Db) (uploadId userId : String) :
    Except String (List UploadPart) := do
  match ← getUploadRecord db uploadId userId with
  | none => .error "Upload record not found"
  | some r => .ok r.parts

/-- The write phase of `UploadDbService.updateUploadPart` (uploadDb.ts
lines 139-147): overwrite the `parts` column with the array computed from
the read snapshot. -/
def updateUploadPartWrite (db : Db) (uploadId userId : String) (now : Nat)
    (parts : List UploadPart) : Db :=
  updateMatching db uploadId userId
    (fun r => { r with parts := parts, updated_at := now })

/-- `UploadDbService.updateUploadPart`: read snapshot, merge the new part,
write the merged array back. -/
def updateUploadPart (db : Db) (now : Nat) (uploadId userId : String)
    (partNumber : Nat) (etag : String) (size : Nat) : Except String Db := do
  let parts0 ← updateUploadPartRead db uploadId userId
  .ok (updateUploadPartWrite db uploadId userId now
    (upsertPartList parts0 ⟨partNumber, etag, size, now⟩))

/-- `UploadDbService.markUploadCompleted` (uploadDb.ts lines 153-180).
Optional final/thumbnail arguments left `undefined` by the caller are
dropped from the payload and keep their stored value. -/
def markUploadCompleted (db : Db) (now : Nat) (uploadId userId : String)
    (finalS3Key finalBucket thumbnailS3Key thumbnailUrl thumbnailCloudinaryUrl :
      Option String) : Db :=
  updateMatching db uploadId userId (fun r =>
    { r with
      status := .completed
      completed_at := some now
      updated_at := now
      final_s3_key := setIfProvided finalS3Key r.final_s3_key
      final_bucket := setIfProvided finalBucket r.final_bucket
      thumbnail_s3_key := setIfProvided thumbnailS3Key r.thumbnail_s3_key
      thumbnail_url := setIfProvided thumbnailUrl r.thumbnail_url
      thumbnail_cloudinary_url :=
        setIfProvided thumbnailCloudinaryUrl r.thumbnail_cloudinary_url })

/-- `UploadDbService.markUploadAborted` (uploadDb.ts lines 213-226): an
unconditional update, with no check of the current status. -/
def markUploadAborted (db : Db) (now : Nat) (uploadId userId : String) : Db :=
  updateMatching db uploadId userId
    (fun r => { r with status := .aborted, updated_at := now })

/-- `UploadDbService.markUploadFailed` (uploadDb.ts lines 228-241): an
unconditional update, with no check of the current status. -/
def markUploadFailed (db : Db) (now : Nat) (uploadId userId : String) : Db :=
  updateMatching db uploadId userId
    (fun r => { r with status := .failed, updated_at := now })

/-- `UploadDbService.updateProcessingStatus` (uploadDb.ts lines 275-304):
clamps the progress into [0,100].  No code in the repository calls it. -/
def updateProcessingStatus (db : Db) (now : Nat) (uploadId userId : String)
    (processingStatus : ProcStatus) (progress : Option Nat)
    (message : Option String) : Db :=
  updateMatching db uploadId userId (fun r =>
    { r with
      processing_status := some processingStatus
      updated_at := now
      processing_progress :=
        match progress with
        | some p => some (max 0 (min 100 p))
        | none => r.processing_progress
      processing_message :=
        match message with
        | some m => some m
        | none => r.processing_message })

/-- The view returned by `UploadDbService.getUploadStatus`. -/
structure UploadStatusView where
  upload_status : UploadStatus
  processing_status : Option ProcStatus
  processing_progress : Option Nat
  processing_message : Option String
  ready_for_display : Bool
deriving DecidableEq, Repr

/-- The readiness predicate computed by `UploadDbService.getUploadStatus`
(uploadDb.ts lines 330-332): status completed, processing status processed
or NULL, and a non-NULL final key. -/
def readyForDisplay (r : UploadRecord) : Bool :=
  r.status == .completed &&
    (r.processing_status == some .processed || r.processing_status == none) &&
    r.final_s3_key != none

/-- `UploadDbService.getUploadStatus` (uploadDb.ts lines 306-334): a
`.single()` query projected to the status view. -/
def getUploadStatus (db : Db) (uploadId userId : String) :
    Except String (Option UploadStatusView) :=
  match filterKey db uploadId userId with
  | [] => .ok none
  | [r] => .ok (some
      { upload_status := r.status
        processing_status := r.processing_status
        processing_progress := r.processing_progress
        processing_message := r.processing_message
        ready_for_display := readyForDisplay r })
  | _ => .error "Failed to get upload status"

/-- The multipart threshold of the initiate handler (upload.ts line 72). -/
def MULTIPART_THRESHOLD : Nat := 5 * 1024 * 1024

/-- The upload-kind classification of the initiate handler (upload.ts
lines 73-74): multipart when `totalSize >= 5MiB`, else single. -/
def detectUploadType (totalSize : Nat) : UploadType :=
  if MULTIPART_THRESHOLD ≤ totalSize then .multipart else .single

/-- Ceiling division; `Math.ceil(a / b)` for the sizes at play (all far
below 2^53, so the float division is exact enough to round identically). -/
def ceilDiv (a b : Nat) : Nat := (a + b - 1) / b

/-- The `totalChunks` hint of the initiate handler (upload.ts lines
109-110): for multipart, the ceiling of `totalSize / chunkSize` with the
caller-supplied chunk size (default 10MiB); for single, 1. -/
def initiateTotalChunks (uploadType : UploadType) (totalSize chunkSize : Nat) :
    Nat :=
  match uploadType with
  | .multipart => ceilDiv totalSize chunkSize
  | .single => 1

/-- The fixed chunk size assumed by the status handler (upload.ts line
413). -/
def STATUS_CHUNK_SIZE : Nat := 10 * 1024 * 1024

/-- The `totalParts` field of the GET /status handler (upload.ts lines
406-419): for multipart, always `ceil(total_size / 10MiB)` regardless of
the chunk size the client chose at initiate; for single, 1. -/
def statusTotalParts (r : UploadRecord) : Nat :=
  match r.upload_type with
  | .multipart => ceilDiv r.total_size STATUS_CHUNK_SIZE
  | .single => 1

/-- An HTTP reply, abstracted to the outcomes the handlers distinguish:
`reply.send` of a success payload, a 404, a 400, or the catch-all 500. -/
inductive HReply (α : Type) where
  | ok (a : α)
  | notFound (msg : String)
  | badRequest (msg : String)
  | serverError (msg : String)
deriving DecidableEq, Repr

/-- The success payload of the POST /complete handler. -/
structure CompletePayload where
  s3Key : String
  bucket : String
  uploadType : UploadType
deriving DecidableEq, Repr

/-- One element of the `parts` body field of POST /complete. -/
structure PartInput where
  partNumber : Nat
  etag : String
deriving DecidableEq, Repr

/-- The POST /abort handler (upload.ts lines 331-374).  It looks the
record up and, for multipart, calls `abortMultipartUpload` (whose outcome
is the `s3Abort` argument; a throw reaches the catch and replies 500
without touching the record).  It never checks `status`:
`markUploadAborted` runs for any found record, active or terminal. -/
def abortHandler (db : Db) (now : Nat) (uploadId userId : String)
    (s3Abort : Except String Unit) : HReply Unit × Db :=
  match getUploadRecord db uploadId userId with
  | .error _ => (.serverError "Failed to abort upload", db)
  | .ok none => (.notFound "Upload not found", db)
  | .ok (some r) =>
      if r.upload_type == .multipart then
        match s3Abort with
        | .error _ => (.serverError "Failed to abort upload", db)
        | .ok () => (.ok (), markUploadAborted db now uploadId userId)
      else
        (.ok (), markUploadAborted db now uploadId userId)

/-- The POST /complete-part handler (upload.ts lines 203-250).  It
verifies the record exists and is multipart, then delegates to
`updateUploadPart`.  It never checks `status = active`. -/
def completePartHandler (db : Db) (now : Nat) (uploadId userId : String)
    (partNumber : Nat) (etag : String) (size : Nat) : HReply Unit × Db :=
  match getUploadRecord db uploadId userId with
  | .error _ => (.serverError "Failed to complete part", db)
  | .ok none => (.notFound "Upload not found", db)
  | .ok (some r) =>
      if r.upload_type != .multipart then
        (.badRequest "Part completion only supported for multipart uploads", db)
      else
        match updateUploadPart db now uploadId userId partNumber etag size with
        | .error _ => (.serverError "Failed to complete part", db)
        | .ok db1 => (.ok (), db1)

/-- The POST /complete handler (upload.ts lines 253-328).  `s3Complete`
is the outcome of `completeMultipartUpload` (only consulted for
multipart); on its failure the inner catch marks the record failed and
rethrows, so the caller sees a 500.  On success the record is marked
completed with no final/thumbnail fields, background processing is
scheduled (modelled separately by `processUpload`), and the read copy of
the record supplies the payload. -/
def completeHandler (db : Db) (now : Nat) (uploadId userId : String)
    (parts : Option (List PartInput)) (s3Complete : Except String Unit) :
    HReply CompletePayload × Db :=
  match getUploadRecord db uploadId userId with
  | .error _ => (.serverError "Failed to complete upload", db)
  | .ok none => (.notFound "Upload not found", db)
  | .ok (some r) =>
      if r.status != .active then
        (.badRequest "Upload is not active", db)
      else if r.upload_type == .multipart then
        match parts with
        | none => (.badRequest "Parts required for multipart upload", db)
        | some ps =>
            if ps.isEmpty then
              (.badRequest "Parts required for multipart upload", db)
            else
              match s3Complete with
              | .error _ =>
                  (.serverError "Failed to complete upload",
                    markUploadFailed db now uploadId userId)
              | .ok () =>
                  (.ok ⟨r.s3_key, r.bucket, r.upload_type⟩,
                    markUploadCompleted db now uploadId userId
                      none none none none none)
      else
        (.ok ⟨r.s3_key, r.bucket, r.upload_type⟩,
          markUploadCompleted db now uploadId userId none none none none none)

/-- The object store: the set of stored objects as (bucket, key) pairs. -/
abbrev S3State := List (String × String)

/-- Membership of an object in the store. -/
def s3HasObject (s3 : S3State) (bucket key : String) : Bool :=
  s3.contains (bucket, key)

/-- `S3UploadService.copyObject` (s3Upload.ts lines 188-202): server-side
copy; the store rejects a copy whose source object does not exist. -/
def copyObject (s3 : S3State) (srcBucket srcKey dstBucket dstKey : String) :
    Except String S3State :=
  if s3HasObject s3 srcBucket srcKey then
    .ok ((dstBucket, dstKey) :: s3.filter (fun o => o != (dstBucket, dstKey)))
  else
    .error "NoSuchKey"

/-- `S3UploadService.deleteObject` (s3Upload.ts lines 204-211): delete is
idempotent; deleting a missing object succeeds. -/
def deleteObject (s3 : S3State) (bucket key : String) : S3State :=
  s3.filter (fun o => o != (bucket, key))

/-- `FileProcessorService.performVirusScan` (fileProcessing.ts lines
159-166): the stub reports every object clean. -/
def performVirusScan (_key : String) : Bool := true

/-- The result record of `FileProcessorService.processUpload`. -/
structure ProcessingResult where
  success : Bool
  finalKey : Option String
  thumbnailKey : Option String
  thumbnailUrl : Option String
  error : Option String
deriving DecidableEq, Repr

/-- `FileProcessorService.processUpload` (fileProcessing.ts lines
32-125), with the content-safety check abstracted to its documented
contract as `scan` (the repository's stub is `performVirusScan`).
Thumbnail generation is skipped in the source (development stub), so the
thumbnail variables stay `undefined`.  On a copy failure the inner catch
runs `cleanupFailedProcessing` (best-effort delete of the final and temp
objects), marks the record failed and rethrows into the outer catch.
When `scan` reports not clean, the final object is deleted and the
function returns a failure result without any record update.  On success
the record is marked completed with the final key and bucket, and the
temp object is deleted. -/
def processUpload (db : Db) (s3 : S3State) (now : Nat)
    (uploadId userId tempBucket finalBucket : String)
    (scan : String → Bool) : ProcessingResult × Db × S3State :=
  match getUploadRecord db uploadId userId with
  | .error e => (⟨false, none, none, none, some e⟩, db, s3)
  | .ok none => (⟨false, none, none, none, some "Upload record not found"⟩, db, s3)
  | .ok (some r) =>
      if r.status != .completed then
        (⟨false, none, none, none, some "Upload not completed"⟩, db, s3)
      else
        let finalKey := r.s3_key
        match copyObject s3 tempBucket r.s3_key finalBucket finalKey with
        | .error e =>
            let s3a := deleteObject s3 finalBucket finalKey
            let s3b := deleteObject s3a tempBucket r.s3_key
            (⟨false, none, none, none, some e⟩,
              markUploadFailed db now uploadId userId, s3b)
        | .ok s3a =>
            if !(scan finalKey) then
              (⟨false, none, none, none, some "File failed virus scan"⟩,
                db, deleteObject s3a finalBucket finalKey)
            else
              let db1 := markUploadCompleted db now uploadId userId
                (some finalKey) (some finalBucket) none none none
              let s3b := deleteObject s3a tempBucket r.s3_key
              (⟨true, some finalKey, none, none, none⟩, db1, s3b)

/-- A sample record, parameterized by the fields the claims vary. -/
def sampleRecord (status : UploadStatus) (ptype : UploadType)
    (pstat : Option ProcStatus) (fkey : Option String)
    (parts : List UploadPart) : UploadRecord :=
  { user_id := "alice"
    upload_id := "up1"
    s3_key := "alice/1-a.jpg"
    bucket := "temp-bucket"
    filename := "a.jpg"
    content_type := "image/jpeg"
    total_size := 10000000
    status := status
    processing_status := pstat
    processing_progress := some 0
    processing_message := none
    upload_type := ptype
    parts := parts
    created_at := 0
    updated_at := 0
    completed_at := none
    final_s3_key := fkey
    final_bucket := none
    thumbnail_s3_key := none
    thumbnail_url := none
    thumbnail_cloudinary_url := none }

/-- The record of the C5 witness: an active multipart record holding one
acknowledged part. -/
def recC5 : UploadRecord :=
  sampleRecord .active .multipart (some .pending) none
    [⟨1, "etagA", 5242880, 0⟩]

/-- The record of the C4 witness: an active single-part upload. -/
def recC4 : UploadRecord :=
  sampleRecord .active .single (some .pending) none []

/-- The record of the C2 counterexample: a completed single-part upload
with a final key. -/
def recC2 : UploadRecord :=
  sampleRecord .completed .single (some .processed) (some "final/a.jpg") []

/-- The record of the C6 counterexample: a completed multipart upload. -/
def recC6 : UploadRecord :=
  sampleRecord .completed .multipart (some .processed) (some "final/a.jpg")
    []

/-- The record of the promotion scenarios: a multipart upload just marked
completed by the complete handler — `processing_status` is still the
`pending` it was created with, and no final key is set yet. -/
def recC1 : UploadRecord :=
  sampleRecord .completed .multipart (some .pending) none []

/-- The object store of the promotion scenarios: the uploaded object
sits in the temp bucket under the record's key. -/
def s3C1 : S3State := [("temp-bucket", "alice/1-a.jpg")]

/-- The record of the C9 scenario: an active multipart upload with no
parts acknowledged yet. -/
def recC9 : UploadRecord :=
  sampleRecord .active .multipart (some .pending) none []

/-- Two updateUploadPart calls where both read phases run before either
write phase — the interleaving permitted by the await points between the
read of the record and the write of the merged parts array. -/
def interleavedTwoPartCalls (db : Db) (uploadId userId : String)
    (pn1 : Nat) (etag1 : String) (size1 now1 : Nat)
    (pn2 : Nat) (etag2 : String) (size2 now2 : Nat) :
    Except String Db := do
  let snap1 ← updateUploadPartRead db uploadId userId
  let snap2 ← updateUploadPartRead db uploadId userId
  let db1 := updateUploadPartWrite db uploadId userId now1
    (upsertPartList snap1 ⟨pn1, etag1, size1, now1⟩)
  .ok (updateUploadPartWrite db1 uploadId userId now2
    (upsertPartList snap2 ⟨pn2, etag2, size2, now2⟩))

/-- Unfolding of the part merge on a cons cell: replace the head when its
part number matches, otherwise recurse on the tail. -/
theorem upsertPartList_cons (a : UploadPart) (l : List UploadPart)
    (p : UploadPart) :
    upsertPartList (a :: l) p =
      if a.partNumber == p.partNumber then p :: l
      else a :: upsertPartList l p := by
  unfold upsertPartList
  rw [List.findIdx?_cons]
  by_cases h : a.partNumber == p.partNumber
  · simp [h]
  · simp only [h, if_neg, Bool.false_eq_true, not_false_iff, if_false]
    rw [List.findIdx?_succ]
    cases hfi : List.findIdx? (fun q => q.partNumber == p.partNumber) l with
    | none => simp
    | some i => simp [List.set_cons_succ]

/-- After the merge, the entries with the reported part number are exactly
the merged part, provided part numbers were unique beforehand. -/
theorem filter_upsertPartList (parts : List UploadPart) (p : UploadPart)
    (hnd : (parts.map UploadPart.partNumber).Nodup) :
    (upsertPartList parts p).filter (fun q => q.partNumber == p.partNumber) =
      [p] := by
  induction parts with
  | nil => simp [upsertPartList]
  | cons a l ih =>
    rw [upsertPartList_cons]
    simp only [List.map_cons, List.nodup_cons, List.mem_map] at hnd
    by_cases h : a.partNumber == p.partNumber
    · rw [if_pos h, List.filter_cons, if_pos (by simp)]
      have hnil : l.filter (fun q => q.partNumber == p.partNumber) = [] := by
        rw [List.filter_eq_nil_iff]
        intro q hq hqp
        exact hnd.1 ⟨q, hq, by
          have := beq_iff_eq.mp hqp
          have ha := beq_iff_eq.mp h
          omega⟩
      rw [hnil]
    · rw [if_neg h, List.filter_cons, if_neg (by simpa using h)]
      exact ih hnd.2

/-- Merging a part number already present keeps the number of entries:
idempotent replace, not append. -/
theorem length_upsertPartList_of_mem (parts : List UploadPart)
    (p : UploadPart) (hmem : p.partNumber ∈ parts.map UploadPart.partNumber) :
    (upsertPartList parts p).length = parts.length := by
  induction parts with
  | nil => simp at hmem
  | cons a l ih =>
    rw [upsertPartList_cons]
    by_cases h : a.partNumber == p.partNumber
    · simp [h]
    · rw [if_neg h]
      simp only [List.map_cons, List.mem_cons] at hmem
      rcases hmem with hmem | hmem
      · exact absurd (by simpa using hmem.symm) (by simpa using h)
      · simp [ih hmem]

/-- Merging a fresh part number appends exactly one entry. -/
theorem upsertPartList_of_not_mem (parts : List UploadPart) (p : UploadPart)
    (hmem : p.partNumber ∉ parts.map UploadPart.partNumber) :
    upsertPartList parts p = parts ++ [p] := by
  induction parts with
  | nil => rfl
  | cons a l ih =>
    rw [upsertPartList_cons]
    simp only [List.map_cons, List.mem_cons, not_or] at hmem
    rw [if_neg (by simpa using fun he => hmem.1 he.symm)]
    rw [ih hmem.2, List.cons_append]

/-- An update whose payload leaves the key columns alone commutes with the
key filter. -/
theorem filterKey_updateMatching (db : Db) (uploadId userId : String)
    (f : UploadRecord → UploadRecord)
    (hid : ∀ r, (f r).upload_id = r.upload_id)
    (huid : ∀ r, (f r).user_id = r.user_id) :
    filterKey (updateMatching db uploadId userId f) uploadId userId =
      List.map f (filterKey db uploadId userId) := by
  induction db with
  | nil => rfl
  | cons a l ih =>
    simp only [updateMatching, List.map_cons, filterKey, List.filter_cons] at *
    by_cases hk : keyMatches uploadId userId a
    · have hfk : keyMatches uploadId userId (f a) = true := by
        simpa only [keyMatches, hid a, huid a] using hk
      simp only [hk, if_pos, if_true, hfk, List.filter_cons, ih, List.map_cons]
    · have hk2 : keyMatches uploadId userId a = false := by
        simpa using hk
      simp only [hk2, if_false, List.filter_cons, ih, Bool.false_eq_true]

/-- The readiness predicate of the status facade, spelled as a
proposition. -/
theorem readyForDisplay_eq_true_iff (r : UploadRecord) :
    readyForDisplay r = true ↔
      r.status = .completed ∧
        (r.processing_status = some .processed ∨ r.processing_status = none) ∧
        r.final_s3_key ≠ none := by
  unfold readyForDisplay
  rcases hs : r.status <;> rcases hp : r.processing_status with _ | ps <;>
    rcases hk : r.final_s3_key with _ | k <;>
      simp [beq_iff_eq]

/-- Claim C8: for every valid initiate input, the chosen upload kind is
multipart exactly when totalSize is at least 5 MiB (5 * 1024 * 1024
bytes) and single exactly when totalSize is below 5 MiB. -/
theorem C8_upload_kind_threshold (totalSize : Nat) :
    (detectUploadType totalSize = .multipart ↔
      5 * 1024 * 1024 ≤ totalSize) ∧
    (detectUploadType totalSize = .single ↔ totalSize < 5 * 1024 * 1024) := by
  unfold detectUploadType MULTIPART_THRESHOLD
  by_cases h : 5 * 1024 * 1024 ≤ totalSize
  all_goals simp [h]
  all_goals omega

/-- Claim C3: for every record, the status facade reports
readyForDisplay true exactly when status = completed, processingStatus is
processed or null, and finalStorageKey is set; in particular it reports
false whenever finalStorageKey is unset, even for a completed record. -/
theorem C3_ready_for_display_characterization (db : Db)
    (uploadId userId : String) (r : UploadRecord)
    (h : filterKey db uploadId userId = [r]) :
    getUploadStatus db uploadId userId = .ok (some
      { upload_status := r.status
        processing_status := r.processing_status
        processing_progress := r.processing_progress
        processing_message := r.processing_message
        ready_for_display := readyForDisplay r }) ∧
    (readyForDisplay r = true ↔
      r.status = .completed ∧
        (r.processing_status = some .processed ∨ r.processing_status = none) ∧
        r.final_s3_key ≠ none) ∧
    (r.final_s3_key = none → readyForDisplay r = false) := by
  refine ⟨?_, readyForDisplay_eq_true_iff r, ?_⟩
  · unfold getUploadStatus
    rw [h]
  · intro hk
    rcases hdisp : readyForDisplay r with _ | _
    · rfl
    · have := (readyForDisplay_eq_true_iff r).mp hdisp
      exact absurd hk this.2.2

/-- Witness for C3 at a completed, processed record with a final key. -/
theorem C3_ready_for_display_characterization_witness :
    getUploadStatus [sampleRecord .completed .multipart (some .processed)
        (some "final/a.jpg") []] "up1" "alice" = .ok (some
      { upload_status := (sampleRecord .completed .multipart (some .processed)
          (some "final/a.jpg") []).status
        processing_status := (sampleRecord .completed .multipart
          (some .processed) (some "final/a.jpg") []).processing_status
        processing_progress := (sampleRecord .completed .multipart
          (some .processed) (some "final/a.jpg") []).processing_progress
        processing_message := (sampleRecord .completed .multipart
          (some .processed) (some "final/a.jpg") []).processing_message
        ready_for_display := readyForDisplay (sampleRecord .completed
          .multipart (some .processed) (some "final/a.jpg") []) }) ∧
    (readyForDisplay (sampleRecord .completed .multipart (some .processed)
        (some "final/a.jpg") []) = true ↔
      (sampleRecord .completed .multipart (some .processed)
          (some "final/a.jpg") []).status = .completed ∧
        ((sampleRecord .completed .multipart (some .processed)
            (some "final/a.jpg") []).processing_status = some .processed ∨
          (sampleRecord .completed .multipart (some .processed)
            (some "final/a.jpg") []).processing_status = none) ∧
        (sampleRecord .completed .multipart (some .processed)
          (some "final/a.jpg") []).final_s3_key ≠ none) ∧
    ((sampleRecord .completed .multipart (some .processed)
        (some "final/a.jpg") []).final_s3_key = none →
      readyForDisplay (sampleRecord .completed .multipart (some .processed)
        (some "final/a.jpg") []) = false) :=
  C3_ready_for_display_characterization
    [sampleRecord .completed .multipart (some .processed)
      (some "final/a.jpg") []] "up1" "alice"
    (sampleRecord .completed .multipart (some .processed)
      (some "final/a.jpg") []) (by decide)

/-- The write phase commutes with the key filter: it rewrites exactly the
selected rows. -/
theorem filterKey_updateUploadPartWrite (db : Db) (uploadId userId : String)
    (now : Nat) (parts : List UploadPart) :
    filterKey (updateUploadPartWrite db uploadId userId now parts) uploadId
        userId =
      List.map (fun s => { s with parts := parts, updated_at := now })
        (filterKey db uploadId userId) := by
  unfold updateUploadPartWrite
  exact filterKey_updateMatching db uploadId userId _ (fun s => rfl)
    (fun s => rfl)

/-- Claim C5: for every multipart record, reporting a partNumber already
present replaces that part with the latest report (exactly one entry for
that partNumber afterwards) and never appends a duplicate; reporting a
new partNumber appends one entry. -/
theorem C5_part_report_replaces (db : Db) (uploadId userId etag : String)
    (now pn size : Nat) (r : UploadRecord)
    (h : filterKey db uploadId userId = [r])
    (hnd : (r.parts.map UploadPart.partNumber).Nodup) :
    updateUploadPart db now uploadId userId pn etag size =
      .ok (updateUploadPartWrite db uploadId userId now
        (upsertPartList r.parts ⟨pn, etag, size, now⟩)) ∧
    filterKey (updateUploadPartWrite db uploadId userId now
        (upsertPartList r.parts ⟨pn, etag, size, now⟩)) uploadId userId =
      [{ r with parts := upsertPartList r.parts ⟨pn, etag, size, now⟩,
                updated_at := now }] ∧
    (upsertPartList r.parts ⟨pn, etag, size, now⟩).filter
        (fun q => q.partNumber == pn) = [⟨pn, etag, size, now⟩] ∧
    (pn ∈ r.parts.map UploadPart.partNumber →
      (upsertPartList r.parts ⟨pn, etag, size, now⟩).length =
        r.parts.length) ∧
    (pn ∉ r.parts.map UploadPart.partNumber →
      upsertPartList r.parts ⟨pn, etag, size, now⟩ =
        r.parts ++ [⟨pn, etag, size, now⟩]) := by
  refine ⟨?_, ?_, filter_upsertPartList r.parts ⟨pn, etag, size, now⟩ hnd,
    length_upsertPartList_of_mem r.parts ⟨pn, etag, size, now⟩,
    upsertPartList_of_not_mem r.parts ⟨pn, etag, size, now⟩⟩
  · simp only [updateUploadPart, updateUploadPartRead, getUploadRecord, h]
    rfl
  · rw [filterKey_updateUploadPartWrite, h]
    rfl

/-- Witness for C5: re-reporting part 1 with a different etag and size
replaces the stored entry. -/
theorem C5_part_report_replaces_witness :
    updateUploadPart [recC5] 7 "up1" "alice" 1 "etagB" 123 =
      .ok (updateUploadPartWrite [recC5] "up1" "alice" 7
        (upsertPartList recC5.parts ⟨1, "etagB", 123, 7⟩)) ∧
    filterKey (updateUploadPartWrite [recC5] "up1" "alice" 7
        (upsertPartList recC5.parts ⟨1, "etagB", 123, 7⟩)) "up1" "alice" =
      [{ recC5 with parts := upsertPartList recC5.parts ⟨1, "etagB", 123, 7⟩,
                    updated_at := 7 }] ∧
    (upsertPartList recC5.parts ⟨1, "etagB", 123, 7⟩).filter
        (fun q => q.partNumber == 1) = [⟨1, "etagB", 123, 7⟩] ∧
    (1 ∈ recC5.parts.map UploadPart.partNumber →
      (upsertPartList recC5.parts ⟨1, "etagB", 123, 7⟩).length =
        recC5.parts.length) ∧
    (1 ∉ recC5.parts.map UploadPart.partNumber →
      upsertPartList recC5.parts ⟨1, "etagB", 123, 7⟩ =
        recC5.parts ++ [⟨1, "etagB", 123, 7⟩]) :=
  C5_part_report_replaces [recC5] "up1" "alice" "etagB" 7 1 123 recC5
    (by decide) (by decide)

/-- Claim C10: for a multipart upload, the status handler computes
totalParts as the ceiling of totalSize over a fixed 10 MiB chunk size,
whatever chunkSize the client supplied at initiate, while initiate
reports totalChunks as the ceiling over the supplied chunkSize; the two
can differ when chunkSize is not 10 MiB. -/
theorem C10_status_totalParts_fixed_chunk
    (userId uploadId s3Key bucket filename contentType : String)
    (totalSize chunkSize now : Nat)
    (hmp : detectUploadType totalSize = .multipart) :
    statusTotalParts (createUploadRecord userId uploadId s3Key bucket
        filename contentType totalSize (detectUploadType totalSize) now) =
      ceilDiv totalSize STATUS_CHUNK_SIZE ∧
    initiateTotalChunks (detectUploadType totalSize) totalSize chunkSize =
      ceilDiv totalSize chunkSize ∧
    (∃ ts cs : Nat, cs ≠ STATUS_CHUNK_SIZE ∧
      detectUploadType ts = .multipart ∧
      initiateTotalChunks (detectUploadType ts) ts cs ≠
        statusTotalParts (createUploadRecord userId uploadId s3Key bucket
          filename contentType ts (detectUploadType ts) now)) := by
  refine ⟨?_, ?_, ⟨10000000, 5242880, by decide, by decide, ?_⟩⟩
  · simp [statusTotalParts, createUploadRecord, hmp]
  · simp [initiateTotalChunks, hmp]
  · have e1 : initiateTotalChunks (detectUploadType 10000000) 10000000
        5242880 = 2 := rfl
    have e2 : statusTotalParts (createUploadRecord userId uploadId s3Key
        bucket filename contentType 10000000 (detectUploadType 10000000)
        now) = ceilDiv 10000000 STATUS_CHUNK_SIZE := by
      have hmp2 : detectUploadType 10000000 = UploadType.multipart := by
        decide
      simp [statusTotalParts, createUploadRecord, hmp2]
    rw [e1, e2]
    decide

/-- Witness for C10: with totalSize 10_000_000 and client chunkSize
5 MiB, initiate reports 2 chunks while status reports 1 part. -/
theorem C10_status_totalParts_fixed_chunk_witness :
    statusTotalParts (createUploadRecord "alice" "up1" "k" "b" "f" "c"
        10000000 (detectUploadType 10000000) 0) =
      ceilDiv 10000000 STATUS_CHUNK_SIZE ∧
    initiateTotalChunks (detectUploadType 10000000) 10000000 5242880 =
      ceilDiv 10000000 5242880 ∧
    (∃ ts cs : Nat, cs ≠ STATUS_CHUNK_SIZE ∧
      detectUploadType ts = .multipart ∧
      initiateTotalChunks (detectUploadType ts) ts cs ≠
        statusTotalParts (createUploadRecord "alice" "up1" "k" "b" "f" "c"
          ts (detectUploadType ts) 0)) :=
  C10_status_totalParts_fixed_chunk "alice" "up1" "k" "b" "f" "c"
    10000000 5242880 0 (by decide)

/-- `markUploadCompleted` rewrites exactly the selected rows. -/
theorem filterKey_markUploadCompleted (db : Db) (now : Nat)
    (uploadId userId : String) (k b tk tu tc : Option String) :
    filterKey (markUploadCompleted db now uploadId userId k b tk tu tc)
        uploadId userId =
      List.map (fun r =>
        { r with
          status := UploadStatus.completed
          completed_at := some now
          updated_at := now
          final_s3_key := setIfProvided k r.final_s3_key
          final_bucket := setIfProvided b r.final_bucket
          thumbnail_s3_key := setIfProvided tk r.thumbnail_s3_key
          thumbnail_url := setIfProvided tu r.thumbnail_url
          thumbnail_cloudinary_url :=
            setIfProvided tc r.thumbnail_cloudinary_url })
        (filterKey db uploadId userId) := by
  unfold markUploadCompleted
  exact filterKey_updateMatching db uploadId userId _ (fun s => rfl)
    (fun s => rfl)

/-- `markUploadAborted` rewrites exactly the selected rows. -/
theorem filterKey_markUploadAborted (db : Db) (now : Nat)
    (uploadId userId : String) :
    filterKey (markUploadAborted db now uploadId userId) uploadId userId =
      List.map (fun r => { r with status := UploadStatus.aborted,
                                  updated_at := now })
        (filterKey db uploadId userId) := by
  unfold markUploadAborted
  exact filterKey_updateMatching db uploadId userId _ (fun s => rfl)
    (fun s => rfl)

/-- Claim C4: calling complete twice for the same uploadId: the first
successful call transitions the record to completed, and the second call
observes the non-active-state error and changes nothing. -/
theorem C4_complete_twice_second_rejected (db : Db) (uploadId userId : String)
    (now1 now2 : Nat) (r : UploadRecord)
    (parts1 parts2 : Option (List PartInput))
    (s3c1 s3c2 : Except String Unit)
    (h : filterKey db uploadId userId = [r])
    (hact : r.status = .active)
    (hmp : r.upload_type = .multipart →
      (∃ ps, parts1 = some ps ∧ ps ≠ []) ∧ s3c1 = .ok ()) :
    completeHandler db now1 uploadId userId parts1 s3c1 =
      (.ok ⟨r.s3_key, r.bucket, r.upload_type⟩,
        markUploadCompleted db now1 uploadId userId none none none none
          none) ∧
    filterKey (markUploadCompleted db now1 uploadId userId none none none
        none none) uploadId userId =
      [{ r with status := UploadStatus.completed, completed_at := some now1,
                updated_at := now1 }] ∧
    completeHandler (markUploadCompleted db now1 uploadId userId none none
        none none none) now2 uploadId userId parts2 s3c2 =
      (.badRequest "Upload is not active",
        markUploadCompleted db now1 uploadId userId none none none none
          none) := by
  have hget : getUploadRecord db uploadId userId = .ok (some r) := by
    unfold getUploadRecord
    rw [h]
  have hdb1 : filterKey (markUploadCompleted db now1 uploadId userId none
      none none none none) uploadId userId =
      [{ r with status := UploadStatus.completed, completed_at := some now1,
                updated_at := now1 }] := by
    rw [filterKey_markUploadCompleted, h]
    rfl
  refine ⟨?_, hdb1, ?_⟩
  · unfold completeHandler
    rw [hget]
    cases ht : r.upload_type with
    | single => simp [hact, ht]
    | multipart =>
        obtain ⟨⟨ps, hps, hne⟩, hs3⟩ := hmp ht
        subst hps
        subst hs3
        have hemp : ps.isEmpty = false := by
          cases ps with
          | nil => exact absurd rfl hne
          | cons a l => rfl
        simp [hact, ht, hemp]
  · have hget2 : getUploadRecord (markUploadCompleted db now1 uploadId
        userId none none none none none) uploadId userId =
        .ok (some { r with status := UploadStatus.completed,
                           completed_at := some now1,
                           updated_at := now1 }) := by
      unfold getUploadRecord
      rw [hdb1]
    unfold completeHandler
    rw [hget2]
    simp

/-- Witness for C4: completing the same single-part upload twice; the
second call is rejected with the non-active error. -/
theorem C4_complete_twice_second_rejected_witness :
    completeHandler [recC4] 3 "up1" "alice" none (.ok ()) =
      (.ok ⟨recC4.s3_key, recC4.bucket, recC4.upload_type⟩,
        markUploadCompleted [recC4] 3 "up1" "alice" none none none none
          none) ∧
    filterKey (markUploadCompleted [recC4] 3 "up1" "alice" none none none
        none none) "up1" "alice" =
      [{ recC4 with status := UploadStatus.completed,
                    completed_at := some 3, updated_at := 3 }] ∧
    completeHandler (markUploadCompleted [recC4] 3 "up1" "alice" none none
        none none none) 4 "up1" "alice" none (.ok ()) =
      (.badRequest "Upload is not active",
        markUploadCompleted [recC4] 3 "up1" "alice" none none none none
          none) :=
  C4_complete_twice_second_rejected [recC4] "up1" "alice" 3 4 recC4
    none none (.ok ()) (.ok ()) (by decide) (by decide)
    (fun hx => absurd hx (by decide))

/-- Counterexample to claim C2: the abort handler performs no
terminal-state check, so aborting an already-completed record is not
rejected — it succeeds and overwrites the status to aborted. -/
theorem C2_abort_of_completed_not_rejected :
    recC2.status = .completed ∧
    abortHandler [recC2] 5 "up1" "alice" (.ok ()) =
      (.ok (), [{ recC2 with status := UploadStatus.aborted,
                             updated_at := 5 }]) := by
  decide

/-- Claim C2 (amended): abort of an active record transitions it to
aborted, but the handler never rejects by status: abort of any found
record — including one already completed, aborted, or failed — succeeds
and unconditionally overwrites its status to aborted. -/
theorem C2_abort_overwrites_any_status (db : Db) (now : Nat)
    (uploadId userId : String) (r : UploadRecord)
    (s3Abort : Except String Unit)
    (h : filterKey db uploadId userId = [r])
    (hs3 : r.upload_type = .multipart → s3Abort = .ok ()) :
    abortHandler db now uploadId userId s3Abort =
      (.ok (), markUploadAborted db now uploadId userId) ∧
    filterKey (markUploadAborted db now uploadId userId) uploadId userId =
      [{ r with status := UploadStatus.aborted, updated_at := now }] := by
  have hget : getUploadRecord db uploadId userId = .ok (some r) := by
    unfold getUploadRecord
    rw [h]
  constructor
  · unfold abortHandler
    rw [hget]
    cases ht : r.upload_type with
    | single => simp [ht]
    | multipart =>
        rw [hs3 ht]
        simp [ht]
  · rw [filterKey_markUploadAborted, h]
    rfl

/-- Witness for the amended C2 at an active multipart record. -/
theorem C2_abort_overwrites_any_status_witness :
    abortHandler [sampleRecord .active .multipart (some .pending) none []]
        5 "up1" "alice" (.ok ()) =
      (.ok (), markUploadAborted
        [sampleRecord .active .multipart (some .pending) none []] 5 "up1"
        "alice") ∧
    filterKey (markUploadAborted
        [sampleRecord .active .multipart (some .pending) none []] 5 "up1"
        "alice") "up1" "alice" =
      [{ sampleRecord .active .multipart (some .pending) none [] with
          status := UploadStatus.aborted, updated_at := 5 }] :=
  C2_abort_overwrites_any_status
    [sampleRecord .active .multipart (some .pending) none []] 5 "up1"
    "alice" (sampleRecord .active .multipart (some .pending) none [])
    (.ok ()) (by decide) (fun _ => rfl)

/-- Counterexample to claim C6: the complete-part handler checks only
that the record is multipart, not that it is active; a part report
against an already-completed multipart record succeeds and mutates the
stored parts. -/
theorem C6_part_report_on_completed_accepted :
    recC6.status = .completed ∧
    completePartHandler [recC6] 9 "up1" "alice" 1 "etagX" 100 =
      (.ok (), [{ recC6 with parts := [⟨1, "etagX", 100, 9⟩],
                             updated_at := 9 }]) := by
  decide

/-- Claim C6 (amended): acknowledging a part succeeds whenever the
matching record exists and is multipart, regardless of its status — the
handler validates only the kind, and updateUploadPart fails with its
not-found error only when no record matches at all; a part report
against a single-part record is rejected and leaves the store
unchanged. -/
theorem C6_part_report_checks_only_kind (db : Db) (now pn size : Nat)
    (uploadId userId etag : String) (r : UploadRecord)
    (h : filterKey db uploadId userId = [r])
    (hmp : r.upload_type = .multipart) :
    completePartHandler db now uploadId userId pn etag size =
      (.ok (), updateUploadPartWrite db uploadId userId now
        (upsertPartList r.parts ⟨pn, etag, size, now⟩)) ∧
    (∀ db2 r2, filterKey db2 uploadId userId = [r2] →
      r2.upload_type = .single →
      completePartHandler db2 now uploadId userId pn etag size =
        (.badRequest "Part completion only supported for multipart uploads",
          db2)) ∧
    (∀ db3, filterKey db3 uploadId userId = [] →
      completePartHandler db3 now uploadId userId pn etag size =
        (.notFound "Upload not found", db3)) := by
  refine ⟨?_, ?_, ?_⟩
  · have hget : getUploadRecord db uploadId userId = .ok (some r) := by
      unfold getUploadRecord
      rw [h]
    have hupd : updateUploadPart db now uploadId userId pn etag size =
        .ok (updateUploadPartWrite db uploadId userId now
          (upsertPartList r.parts ⟨pn, etag, size, now⟩)) := by
      simp only [updateUploadPart, updateUploadPartRead, getUploadRecord, h]
      rfl
    unfold completePartHandler
    rw [hget, hupd]
    simp [hmp]
  · intro db2 r2 h2 hs
    have hget2 : getUploadRecord db2 uploadId userId = .ok (some r2) := by
      unfold getUploadRecord
      rw [h2]
    unfold completePartHandler
    rw [hget2]
    simp [hs]
  · intro db3 h3
    have hget3 : getUploadRecord db3 uploadId userId = .ok none := by
      unfold getUploadRecord
      rw [h3]
    unfold completePartHandler
    rw [hget3]

/-- Witness for the amended C6 at an active multipart record, a
single-part record, and an empty store. -/
theorem C6_part_report_checks_only_kind_witness :
    completePartHandler [sampleRecord .active .multipart (some .pending)
        none []] 9 "up1" "alice" 1 "etagX" 100 =
      (.ok (), updateUploadPartWrite [sampleRecord .active .multipart
          (some .pending) none []] "up1" "alice" 9
        (upsertPartList (sampleRecord .active .multipart (some .pending)
            none []).parts ⟨1, "etagX", 100, 9⟩)) ∧
    (∀ db2 r2, filterKey db2 "up1" "alice" = [r2] →
      r2.upload_type = .single →
      completePartHandler db2 9 "up1" "alice" 1 "etagX" 100 =
        (.badRequest "Part completion only supported for multipart uploads",
          db2)) ∧
    (∀ db3, filterKey db3 "up1" "alice" = [] →
      completePartHandler db3 9 "up1" "alice" 1 "etagX" 100 =
        (.notFound "Upload not found", db3)) :=
  C6_part_report_checks_only_kind
    [sampleRecord .active .multipart (some .pending) none []] 9 1 100
    "up1" "alice" "etagX"
    (sampleRecord .active .multipart (some .pending) none [])
    (by decide) (by decide)

/-- Claim C1 fails on the code: a background promotion run whose copy
succeeds and whose content-safety check reports clean (the repository's
stub `performVirusScan`) does persist final_s3_key and final_bucket, but
no code path ever advances processing_status beyond the `pending` set at
creation (updateProcessingStatus has no caller), so the status facade
still reports ready_for_display = false afterwards. -/
theorem C1_promotion_leaves_record_not_ready :
    (processUpload [recC1] s3C1 11 "up1" "alice" "temp-bucket"
        "final-bucket" performVirusScan).fst.success = true ∧
    filterKey (processUpload [recC1] s3C1 11 "up1" "alice" "temp-bucket"
        "final-bucket" performVirusScan).snd.fst "up1" "alice" =
      [{ recC1 with status := UploadStatus.completed,
                    completed_at := some 11, updated_at := 11,
                    final_s3_key := some "alice/1-a.jpg",
                    final_bucket := some "final-bucket" }] ∧
    getUploadStatus (processUpload [recC1] s3C1 11 "up1" "alice"
        "temp-bucket" "final-bucket" performVirusScan).snd.fst "up1"
        "alice" = .ok (some
      { upload_status := .completed
        processing_status := some .pending
        processing_progress := some 0
        processing_message := none
        ready_for_display := false }) := by
  decide

/-- Claim C7 fails on the code: when the content-safety check reports
not-clean, the copied final-bucket object is deleted (no thumbnail
exists to delete), but the function returns without calling
markUploadFailed — despite the comment in the source saying "Delete the
file and mark as failed" — so the record stays completed instead of
ending in failed. -/
theorem C7_not_clean_scan_keeps_record_completed :
    recC1.status = .completed ∧
    (processUpload [recC1] s3C1 11 "up1" "alice" "temp-bucket"
        "final-bucket" (fun _ => false)).fst =
      ⟨false, none, none, none, some "File failed virus scan"⟩ ∧
    s3HasObject (processUpload [recC1] s3C1 11 "up1" "alice" "temp-bucket"
        "final-bucket" (fun _ => false)).snd.snd "final-bucket"
      "alice/1-a.jpg" = false ∧
    (processUpload [recC1] s3C1 11 "up1" "alice" "temp-bucket"
        "final-bucket" (fun _ => false)).snd.fst = [recC1] := by
  decide

/-- Claim C9 fails on the code: updateUploadPart is a non-atomic
read-modify-write of the whole parts array, so two interleaved calls for
distinct part numbers can lose one acknowledgement, while the same two
calls run sequentially keep both. -/
theorem C9_interleaved_part_reports_lose_update :
    ((do
        let d1 ← updateUploadPart [recC9] 1 "up1" "alice" 1 "etag1" 100
        updateUploadPart d1 2 "up1" "alice" 2 "etag2" 100) =
      .ok [{ recC9 with
              parts := [⟨1, "etag1", 100, 1⟩, ⟨2, "etag2", 100, 2⟩],
              updated_at := 2 }]) ∧
    interleavedTwoPartCalls [recC9] "up1" "alice" 1 "etag1" 100 1
        2 "etag2" 100 2 =
      .ok [{ recC9 with parts := [⟨2, "etag2", 100, 2⟩],
                        updated_at := 2 }] := by
  decide
